import Mathlib

/-!
Shallow embedding of `src/examples/R1_web_crawler/R1_web_crawler.py`.

The script is sequential glue around four functions:
`search_google`, `select_urls_with_r1`, `extract_company_info` and
`poll_firecrawl_result`.  Each function is embedded as a pure Lean
function over an explicit environment describing the outcomes of its
external HTTP / LLM calls (which may raise, modelled by `Except` /
outcome types).  JSON values are modelled by the inductive `Json`;
Python truthiness (`if data.get('success')`) is modelled by
`Json.truthy`; exceptions raised by library calls are values of `PyErr`.
-/

/-- JSON values as produced by `response.json()` / `json.loads`.
Numbers are modelled as integers; no claim depends on float payloads.
Objects are association lists with the unique keys of a Python dict. -/
inductive Json where
  | null
  | bool (b : Bool)
  | num (n : Int)
  | str (s : String)
  | arr (elems : List Json)
  | obj (fields : List (String × Json))

/-- Python exceptions relevant to the script. -/
inductive PyErr where
  | requestException
  | jsonDecodeError
  | attributeError
  | typeError
  deriving DecidableEq

/-- Key lookup in a JSON object's field list (Python dict indexing). -/
def jlookup : List (String × Json) → String → Option Json
  | [], _ => none
  | (k, v) :: rest, key => if k = key then some v else jlookup rest key

/-- Python truthiness of a JSON value: `None`, `False`, `0`, `""`,
`[]` and `{}` are falsy, everything else is truthy. -/
def Json.truthy : Json → Bool
  | .null => false
  | .bool b => b
  | .num n => n != 0
  | .str s => s != ""
  | .arr elems => !elems.isEmpty
  | .obj fields => !fields.isEmpty

/-- Python `dict.get(key)`: the value when present, `None` otherwise. -/
def jget (fields : List (String × Json)) (key : String) : Json :=
  (jlookup fields key).getD .null

/-- Python `dict.get(key, default)`. -/
def jgetD (fields : List (String × Json)) (key : String) (dflt : Json) : Json :=
  (jlookup fields key).getD dflt

/-- Outcome of one polling GET in `poll_firecrawl_result`:
the request/`raise_for_status` raised, `response.json()` raised,
or a parsed JSON body was obtained. -/
inductive PollOutcome where
  | netError
  | badJson
  | ok (body : Json)

/-- Result of the polling loop: the returned value (`data['data']` or
`None`) together with the number of GET requests actually issued. -/
structure PollResult where
  result : Option Json
  requests : Nat

/-- The body of the `for attempt in range(1, max_attempts + 1)` loop of
`poll_firecrawl_result`, starting at attempt number `attempt` with
`remaining` attempts left.  Mirrors the source:
any exception in an attempt returns `None`; on a parsed body `data`,
`data.get('success') and data.get('data')` returns `data['data']`,
`data.get('success') and not data.get('data')` sleeps and retries,
otherwise the loop returns `None`.  A non-object body makes
`data.get` raise `AttributeError`, caught by `except Exception`. -/
def pollFrom (responses : Nat → PollOutcome) (attempt : Nat) : Nat → PollResult
  | 0 => ⟨none, 0⟩
  | remaining + 1 =>
    match responses attempt with
    | .netError => ⟨none, 1⟩
    | .badJson => ⟨none, 1⟩
    | .ok body =>
      match body with
      | .obj fields =>
        let s := jget fields "success"
        let d := jget fields "data"
        if s.truthy && d.truthy then ⟨some d, 1⟩
        else if s.truthy && !d.truthy then
          let rest := pollFrom responses (attempt + 1) remaining
          ⟨rest.result, rest.requests + 1⟩
        else ⟨none, 1⟩
      | _ => ⟨none, 1⟩

/-- `poll_firecrawl_result(extraction_id, api_key, interval=5,
max_attempts=12)`: runs the attempt loop from attempt 1; falling out of
the loop returns `None` (timeout).  The `extraction_id`, `api_key` and
`interval` arguments affect only the URL polled and the sleeping, not
the control flow, which depends on the stream of response outcomes. -/
def poll_firecrawl_result (responses : Nat → PollOutcome) (max_attempts : Nat) : PollResult :=
  pollFrom responses 1 max_attempts

/-- The status URL polled for a given extraction id. -/
def pollURL (extraction_id : String) : String :=
  "https://api.firecrawl.dev/v1/extract/" ++ extraction_id

/-- `search_google(query)`: no `try`/`except` at all.  The outcome of
`GoogleSearch({...}).get_dict()` is given as an `Except`: an exception
propagates out of the function unchanged, and on a dict result the
function returns `.get("organic_results", [])`.  `.get` on a non-dict
would raise `AttributeError` (uncaught). -/
def search_google (getDict : Except PyErr Json) : Except PyErr Json :=
  match getDict with
  | .error e => .error e
  | .ok (.obj fields) => .ok (jgetD fields "organic_results" (.arr []))
  | .ok _ => .error .attributeError

/-- The outcome of the `client.chat.completions.create` call in
`select_urls_with_r1`: the content string of the reply together with
the result of `json.loads(content)` (`none` = `JSONDecodeError`). -/
structure LLMResponse where
  content : String
  parsed : Option Json

/-- Characters stripped by Python `str.strip()` (ASCII whitespace). -/
def isPyWhitespace (c : Char) : Bool :=
  c = ' ' || c = '\t' || c = '\n' || c = '\r' || c = '\x0b' || c = '\x0c'

/-- Python `line.strip()`. -/
def pyStrip (s : String) : String :=
  ⟨((s.data.dropWhile isPyWhitespace).reverse.dropWhile isPyWhitespace).reverse⟩

/-- Python `s.startswith(p)`: `p` is a prefix of `s`. -/
def pyStartsWith (s p : String) : Bool :=
  decide (p.data <+: s.data)

/-- Python `text.split('\n')`: split at every newline, keeping empty
pieces (`"".split('\n') == [""]`). -/
def splitNL : List Char → List (List Char)
  | [] => [[]]
  | '\n' :: rest => [] :: splitNL rest
  | c :: rest =>
    match splitNL rest with
    | [] => [[c]]
    | l :: ls => (c :: l) :: ls

/-- The fallback text scan of `select_urls_with_r1`:
`[line.strip() for line in response_text.split('\n')
 if line.strip().startswith(('http://', 'https://'))]`. -/
def fallbackScan (text : String) : List String :=
  ((splitNL text.data).map (fun l => pyStrip ⟨l⟩)).filter
    (fun l => pyStartsWith l "http://" || pyStartsWith l "https://")

/-- Python `url.replace('/*', '')`: removes every occurrence of the
two-character substring `/*`, scanning left to right. -/
def removeWildcard : List Char → List Char
  | [] => []
  | '/' :: '*' :: rest => removeWildcard rest
  | c :: rest => c :: removeWildcard rest

/-- Python `url.rstrip('/')`: removes all trailing `/` characters. -/
def rstripSlash : List Char → List Char
  | [] => []
  | c :: rest =>
    match rstripSlash rest with
    | [] => if c = '/' then [] else [c]
    | r => c :: r

/-- The per-URL cleaning of `select_urls_with_r1`:
`url.replace('/*', '').rstrip('/')`. -/
def clean_url (url : String) : String :=
  ⟨rstripSlash (removeWildcard url.data)⟩

/-- The cleaning stage of `select_urls_with_r1`:
`cleaned_urls = [url.replace('/*', '').rstrip('/') for url in urls]`
followed by `[url for url in cleaned_urls if url]` (truthiness of a
string is non-emptiness). -/
def clean_urls (urls : List String) : List String :=
  (urls.map clean_url).filter (fun u => u != "")

/-- The Python iteration `[... for url in urls]` over the value bound
to `selected_urls`, applied to string methods: a list yields its
elements when all are strings (a non-string element raises
`AttributeError` at `.replace`), a string yields its characters, a
dict yields its keys, and any other value raises `TypeError`. -/
def pyIterStrings : Json → Except PyErr (List String)
  | .arr elems => elems.mapM fun j =>
      match j with
      | .str s => Except.ok s
      | _ => Except.error PyErr.attributeError
  | .str s => .ok (s.data.map fun c => (⟨[c]⟩ : String))
  | .obj fields => .ok (fields.map fun kv => kv.1)
  | _ => .error .typeError

/-- The body of the outer `try` of `select_urls_with_r1` after the LLM
reply arrived: parse as JSON and take `selected_urls` when the result
is a dict containing that key, otherwise (parse failure or unexpected
structure) fall back to the line scan; then clean.  An exception while
iterating the `selected_urls` value escapes to the outer handler. -/
def select_urls_body (resp : LLMResponse) : Except PyErr (List String) :=
  let urlsE : Except PyErr (List String) :=
    match resp.parsed with
    | some (.obj fields) =>
      match jlookup fields "selected_urls" with
      | some v => pyIterStrings v
      | none => .ok (fallbackScan resp.content)
    | some _ => .ok (fallbackScan resp.content)
    | none => .ok (fallbackScan resp.content)
  match urlsE with
  | .error e => .error e
  | .ok urls => .ok (clean_urls urls)

/-- `select_urls_with_r1(company, objective, serp_results)`: the whole
body is wrapped in `try ... except Exception: return []`, so a raised
LLM call (`llm = .error e`) and any exception in the body produce `[]`.
An empty cleaned list is returned as `[]` as well (identical value). -/
def select_urls_with_r1 (llm : Except PyErr LLMResponse) : Except PyErr (List String) :=
  .ok (match llm with
    | .error _ => []
    | .ok resp =>
      match select_urls_body resp with
      | .error _ => []
      | .ok urls => urls)

/-- The payload built by `extract_company_info(urls, prompt, company,
api_key)` for `POST /v1/extract`. -/
structure ExtractPayload where
  urls : List String
  prompt : String
  enableWebSearch : Bool

/-- `payload = {"urls": urls, "prompt": prompt + " for " + company,
"enableWebSearch": True}`. -/
def extract_payload (urls : List String) (prompt company : String) : ExtractPayload :=
  ⟨urls, prompt ++ " for " ++ company, true⟩

/-- Outcome of `requests.post(...)` plus `response.json()` in
`extract_company_info`: the request raised, or a response arrived whose
body parses to `some` JSON value (`none` = `JSONDecodeError`). -/
inductive HttpOutcome where
  | raise (e : PyErr)
  | response (body : Option Json)

/-- Environment of one `extract_company_info` run: the submission
outcome and the stream of polling outcomes. -/
structure ExtractEnv where
  post : HttpOutcome
  pollResponses : Nat → PollOutcome

/-- The `try` body of `extract_company_info`: `data = response.json()`;
`if not data.get('success'): return None`;
`extraction_id = data.get('id'); if not extraction_id: return None`;
otherwise poll with the default cap of 12 attempts.  A non-dict body
makes `data.get` raise `AttributeError`.  Returns the result together
with the number of polling requests issued. -/
def extract_body (env : ExtractEnv) : Except PyErr (Option Json × Nat) :=
  match env.post with
  | .raise e => .error e
  | .response none => .error .jsonDecodeError
  | .response (some data) =>
    match data with
    | .obj fields =>
      if (jget fields "success").truthy = false then .ok (none, 0)
      else if (jget fields "id").truthy = false then .ok (none, 0)
      else
        let p := poll_firecrawl_result env.pollResponses 12
        .ok (p.result, p.requests)
    | _ => .error .attributeError

/-- Record of one `extract_company_info` call: the submitted payload,
the returned value and the number of polling requests issued. -/
structure ExtractCall where
  payload : ExtractPayload
  result : Option Json
  pollRequests : Nat

/-- `extract_company_info(urls, prompt, company, api_key)`: builds the
payload, posts it, and handles the response; the handlers
`except RequestException`, `except JSONDecodeError` and
`except Exception` all return `None`, so the function never raises. -/
def extract_company_info (urls : List String) (prompt company : String)
    (env : ExtractEnv) : Except PyErr ExtractCall :=
  .ok { payload := extract_payload urls prompt company
        result := (match extract_body env with
          | .error _ => none
          | .ok rn => rn.1)
        pollRequests := (match extract_body env with
          | .error _ => 0
          | .ok rn => rn.2) }

/-- Modelled from the claim's wording for comparison with `clean_url`
(refinement check): strip one trailing wildcard marker `/*` when
present, then one trailing slash when present. -/
def clean_url_claim (url : String) : String :=
  let d := url.data
  let d1 := if d.reverse.take 2 = ['*', '/'] then (d.reverse.drop 2).reverse else d
  let d2 := if d1.reverse.take 1 = ['/'] then (d1.reverse.drop 1).reverse else d1
  ⟨d2⟩

/-- A polling response on which the loop continues: a parsed object
whose `success` is truthy and whose `data` is falsy. -/
def contResp (o : PollOutcome) : Prop :=
  ∃ fields, o = .ok (.obj fields) ∧ (jget fields "success").truthy = true ∧
    (jget fields "data").truthy = false

/-- A polling response with `success = true` and `data = null` — the
claim's notion of a non-terminal response. -/
def noTerminalResp (o : PollOutcome) : Prop :=
  ∃ fields, o = .ok (.obj fields) ∧ jget fields "success" = .bool true ∧
    jget fields "data" = .null

/-- A polling attempt whose request or JSON decoding failed. -/
def errOutcome (o : PollOutcome) : Prop :=
  o = .netError ∨ o = .badJson

/-- Constant stream of responses with `success = true` and `data`
bound to the empty object (non-null but falsy). -/
def pollRespEmptyData : Nat → PollOutcome :=
  fun _ => .ok (.obj [("success", .bool true), ("data", .obj [])])

/-- Constant stream of responses with `success = true` and a truthy
`data` payload. -/
def pollRespData : Nat → PollOutcome :=
  fun _ => .ok (.obj [("success", .bool true), ("data", .str "X")])

/-- Constant stream of responses with `success = true`, `data = null`. -/
def pollRespNullData : Nat → PollOutcome :=
  fun _ => .ok (.obj [("success", .bool true), ("data", Json.null)])

/-- LLM reply whose JSON parses to a dict whose `selected_urls` array
holds duplicate, non-`http` strings. -/
def dupResp : LLMResponse :=
  ⟨"\x7b\"selected_urls\": [\"a\", \"a\"]\x7d",
   some (.obj [("selected_urls", .arr [.str "a", .str "a"])])⟩

/-- LLM reply whose JSON parses to a dict whose `selected_urls` value
is a string rather than an array. -/
def strValueResp : LLMResponse :=
  ⟨"\x7b\"selected_urls\": \"http://a.com\"\x7d",
   some (.obj [("selected_urls", .str "http://a.com")])⟩

theorem pollFrom_err (resp : Nat → PollOutcome) (a r : Nat)
    (h : resp a = .netError ∨ resp a = .badJson) :
    pollFrom resp a (r + 1) = ⟨none, 1⟩ := by
  rcases h with h | h <;> simp [pollFrom, h]

theorem pollFrom_cont (resp : Nat → PollOutcome) (a r : Nat)
    (fields : List (String × Json)) (h : resp a = .ok (.obj fields))
    (hs : (jget fields "success").truthy = true)
    (hd : (jget fields "data").truthy = false) :
    pollFrom resp a (r + 1) =
      ⟨(pollFrom resp (a + 1) r).result, (pollFrom resp (a + 1) r).requests + 1⟩ := by
  simp [pollFrom, h, hs, hd]

theorem pollFrom_all_cont (resp : Nat → PollOutcome) :
    ∀ (r a : Nat), (∀ k, contResp (resp k)) → pollFrom resp a r = ⟨none, r⟩ := by
  intro r
  induction r with
  | zero => intro a _; rfl
  | succ n ih =>
    intro a h
    obtain ⟨fields, hk, hs, hd⟩ := h a
    rw [pollFrom_cont resp a n fields hk hs hd, ih (a + 1) h]

theorem pollFrom_err_after_cont (resp : Nat → PollOutcome) :
    ∀ (n a r : Nat), n < r →
      (resp (a + n) = .netError ∨ resp (a + n) = .badJson) →
      (∀ k, k < n → contResp (resp (a + k))) →
      pollFrom resp a r = ⟨none, n + 1⟩ := by
  intro n
  induction n with
  | zero =>
    intro a r hr he _
    obtain ⟨r2, rfl⟩ : ∃ r2, r = r2 + 1 := ⟨r - 1, by omega⟩
    exact pollFrom_err resp a r2 (by simpa using he)
  | succ n ih =>
    intro a r hr he hc
    obtain ⟨r2, rfl⟩ : ∃ r2, r = r2 + 1 := ⟨r - 1, by omega⟩
    obtain ⟨fields, hk, hs, hd⟩ := hc 0 (Nat.succ_pos n)
    rw [pollFrom_cont resp a r2 fields (by simpa using hk) hs hd]
    rw [ih (a + 1) r2 (by omega)
      (by rw [show a + 1 + n = a + (n + 1) by omega]; exact he)
      (fun k hk2 => by
        rw [show a + 1 + k = a + (k + 1) by omega]
        exact hc (k + 1) (by omega))]

/-- C1 counterexample: a polling response with `success = true` and a
non-null `data` payload (the empty object) on which the loop does not
terminate with that payload — it waits and polls again on every one of
the 12 attempts, returning the timeout outcome. -/
theorem poll_empty_object_data_polls_again :
    pollRespEmptyData 1 = .ok (.obj [("success", .bool true), ("data", .obj [])]) ∧
    Json.obj [] ≠ Json.null ∧
    poll_firecrawl_result pollRespEmptyData 12 = ⟨none, 12⟩ :=
  ⟨rfl, fun h => Json.noConfusion h, rfl⟩

/-- C1 (amended): `poll_firecrawl_result` is a three-way branch on the
Python truthiness of `success` and `data`: truthy `success` and truthy
`data` terminate at once with the payload; truthy `success` with falsy
`data` (null, absent, or an empty/zero/false value) waits and polls
again; falsy `success` aborts at once with a null result and no
further polling attempt. -/
theorem poll_firecrawl_three_way_branch (resp : Nat → PollOutcome)
    (fields : List (String × Json)) (m : Nat)
    (h : resp 1 = .ok (.obj fields)) :
    ((jget fields "success").truthy = true → (jget fields "data").truthy = true →
      poll_firecrawl_result resp (m + 1) = ⟨some (jget fields "data"), 1⟩) ∧
    ((jget fields "success").truthy = true → (jget fields "data").truthy = false →
      poll_firecrawl_result resp (m + 1) =
        ⟨(pollFrom resp 2 m).result, (pollFrom resp 2 m).requests + 1⟩) ∧
    ((jget fields "success").truthy = false →
      poll_firecrawl_result resp (m + 1) = ⟨none, 1⟩) := by
  refine ⟨fun hs hd => ?_, fun hs hd => ?_, fun hs => ?_⟩
  · simp [poll_firecrawl_result, pollFrom, h, hs, hd]
  · simp [poll_firecrawl_result, pollFrom, h, hs, hd]
  · simp [poll_firecrawl_result, pollFrom, h, hs]

/-- Witness for C1 (amended): on a response with truthy `success` and
truthy `data`, polling returns the payload after exactly one request. -/
theorem poll_firecrawl_three_way_branch_witness :
    poll_firecrawl_result pollRespData 12 = ⟨some (Json.str "X"), 1⟩ :=
  (poll_firecrawl_three_way_branch pollRespData
    [("success", Json.bool true), ("data", Json.str "X")] 11 rfl).1 rfl rfl

/-- C2: when every response has `success = true` and `data = null`
(no terminal state), the loop performs exactly `max_attempts` polling
requests and then returns the timeout outcome (null result). -/
theorem poll_firecrawl_exhausts_attempts (resp : Nat → PollOutcome) (max_attempts : Nat)
    (h : ∀ k, noTerminalResp (resp k)) :
    poll_firecrawl_result resp max_attempts = ⟨none, max_attempts⟩ := by
  have hc : ∀ k, contResp (resp k) := by
    intro k
    obtain ⟨fields, hk, hs, hd⟩ := h k
    exact ⟨fields, hk, by rw [hs]; rfl, by rw [hd]; rfl⟩
  exact pollFrom_all_cont resp max_attempts 1 hc

/-- Witness for C2 at the default cap of 12 attempts. -/
theorem poll_firecrawl_exhausts_attempts_witness :
    poll_firecrawl_result pollRespNullData 12 = ⟨none, 12⟩ :=
  poll_firecrawl_exhausts_attempts pollRespNullData 12
    (fun _ => ⟨[("success", Json.bool true), ("data", Json.null)], rfl, rfl, rfl⟩)

/-- C9: a request or JSON-decoding failure on attempt `i` (all earlier
attempts having continued) makes polling return null immediately after
exactly `i` requests: the remaining attempts of the cap are unused. -/
theorem poll_request_failure_aborts (resp : Nat → PollOutcome) (i max_attempts : Nat)
    (h1 : 1 ≤ i) (h2 : i ≤ max_attempts) (he : errOutcome (resp i))
    (hc : ∀ k, 1 ≤ k → k < i → contResp (resp k)) :
    poll_firecrawl_result resp max_attempts = ⟨none, i⟩ := by
  obtain ⟨n, rfl⟩ : ∃ n, i = n + 1 := ⟨i - 1, by omega⟩
  exact pollFrom_err_after_cont resp n 1 max_attempts (by omega)
    (by rw [show 1 + n = n + 1 by omega]; exact he)
    (fun k hk => hc (1 + k) (by omega) (by omega))

/-- Witness for C9: a network error on the first of 12 attempts. -/
theorem poll_request_failure_aborts_witness :
    poll_firecrawl_result (fun _ => .netError) 12 = ⟨none, 1⟩ :=
  poll_request_failure_aborts (fun _ => .netError) 1 12 (by omega) (by omega)
    (Or.inl rfl) (fun k h1 h2 => absurd h2 (by omega))

/-- C3 counterexample: `search_google` has no exception handling, so a
failing `GoogleSearch(...).get_dict()` call raises out of the function
instead of being converted to an empty result. -/
theorem search_google_propagates_request_error :
    search_google (.error PyErr.requestException) = .error PyErr.requestException ∧
    (search_google (.error PyErr.requestException)).toOption = none :=
  ⟨rfl, rfl⟩

/-- C3 (amended): `select_urls_with_r1` and `extract_company_info`
catch every failure of their external calls and return a normal
(empty/null) value — they never raise — and `poll_firecrawl_result`
is total over every outcome stream by construction; but `search_google`
propagates an exception of the search call to its caller unchanged. -/
theorem catch_boundaries_of_pipeline :
    (∀ llm, ∃ urls, select_urls_with_r1 llm = .ok urls) ∧
    (∀ urls prompt company env, ∃ call,
      extract_company_info urls prompt company env = .ok call) ∧
    (∀ e, search_google (.error e) = .error e) :=
  ⟨fun _ => ⟨_, rfl⟩, fun _ _ _ _ => ⟨_, rfl⟩, fun _ => rfl⟩

/-- C5: when the parsed submission response reports `success = false`
or lacks an `id` field, `extract_company_info` returns the failure
outcome without issuing a single polling request. -/
theorem extract_missing_id_no_poll (urls : List String) (prompt company : String)
    (fields : List (String × Json)) (pollResp : Nat → PollOutcome)
    (h : jlookup fields "success" = some (.bool false) ∨ jlookup fields "id" = none) :
    extract_company_info urls prompt company ⟨.response (some (.obj fields)), pollResp⟩ =
      .ok ⟨extract_payload urls prompt company, none, 0⟩ := by
  have hbody : extract_body ⟨.response (some (.obj fields)), pollResp⟩ = .ok (none, 0) := by
    rcases h with h | h
    · simp [extract_body, jget, h, Json.truthy]
    · cases hs : (jget fields "success").truthy with
      | false => simp [extract_body, hs]
      | true => simp [extract_body, hs, jget, h, Json.truthy]
  simp [extract_company_info, hbody]

/-- Witness for C5: submission succeeded but no `id` field is present;
no polling request is made and the result is null. -/
theorem extract_missing_id_no_poll_witness :
    extract_company_info [] "objective" "co"
      ⟨.response (some (.obj [("success", Json.bool true)])), fun _ => .netError⟩ =
      .ok ⟨extract_payload [] "objective" "co", none, 0⟩ :=
  extract_missing_id_no_poll [] "objective" "co" [("success", Json.bool true)]
    (fun _ => .netError) (Or.inr rfl)

/-- C8: when the provider's response is a dict with no
`organic_results` key, `search_google` returns the empty list and does
not raise. -/
theorem search_google_empty_when_no_organic (fields : List (String × Json))
    (h : jlookup fields "organic_results" = none) :
    search_google (.ok (.obj fields)) = .ok (.arr []) := by
  simp [search_google, jgetD, h]

/-- Witness for C8 at the empty response dict. -/
theorem search_google_empty_when_no_organic_witness :
    search_google (.ok (.obj [])) = .ok (.arr []) :=
  search_google_empty_when_no_organic [] rfl

/-- C10: the extraction submission payload carries
`objective ++ " for " ++ company` as its `prompt` field — never the
objective verbatim — and `enableWebSearch` is always `true`. -/
theorem extract_payload_prompt_not_verbatim (urls : List String)
    (objective company : String) :
    (extract_payload urls objective company).prompt = objective ++ " for " ++ company ∧
    (extract_payload urls objective company).enableWebSearch = true ∧
    (extract_payload urls objective company).prompt ≠ objective := by
  refine ⟨rfl, rfl, fun h => ?_⟩
  have hlen := congrArg String.length h
  simp only [extract_payload, String.length_append] at hlen
  have h5 : (" for " : String).length = 5 := rfl
  rw [h5] at hlen
  omega

theorem removeWildcard_cons {c : Char} (l : List Char) (h : c ≠ '/') :
    removeWildcard (c :: l) = c :: removeWildcard l := by
  cases l with
  | nil => simp [removeWildcard]
  | cons x xs =>
    rw [removeWildcard.eq_def]
    split
    · simp_all
    · simp_all
    · simp_all

theorem rstripSlash_cons {c : Char} (l : List Char) (h : c ≠ '/') :
    rstripSlash (c :: l) = c :: rstripSlash l := by
  cases hr : rstripSlash l with
  | nil => simp [rstripSlash, hr, h]
  | cons x xs => simp [rstripSlash, hr]

theorem rstripSlash_no_trailing (l : List Char) :
    (rstripSlash l).getLast? ≠ some '/' := by
  induction l with
  | nil => simp [rstripSlash]
  | cons c rest ih =>
    cases hr : rstripSlash rest with
    | nil =>
      by_cases hc : c = '/'
      · simp [rstripSlash, hr, hc]
      · simp [rstripSlash, hr, hc]
    | cons x xs =>
      have h2 : rstripSlash (c :: rest) = c :: x :: xs := by simp [rstripSlash, hr]
      rw [h2, List.getLast?_cons_cons, ← hr]
      exact ih

theorem clean_url_http_prefix (u : String)
    (h : pyStartsWith u "http://" = true ∨ pyStartsWith u "https://" = true) :
    ∃ t, (clean_url u).data = 'h' :: 't' :: 't' :: 'p' :: t := by
  have hdata : ∃ t0, u.data = 'h' :: 't' :: 't' :: 'p' :: t0 := by
    rcases h with h | h <;>
      rw [pyStartsWith, decide_eq_true_iff] at h <;>
      obtain ⟨t, ht⟩ := h
    · exact ⟨':' :: '/' :: '/' :: t, by rw [← ht]; rfl⟩
    · exact ⟨'s' :: ':' :: '/' :: '/' :: t, by rw [← ht]; rfl⟩
  obtain ⟨t0, ht0⟩ := hdata
  refine ⟨rstripSlash (removeWildcard t0), ?_⟩
  show rstripSlash (removeWildcard u.data) = _
  rw [ht0, removeWildcard_cons _ (by decide), removeWildcard_cons _ (by decide),
    removeWildcard_cons _ (by decide), removeWildcard_cons _ (by decide),
    rstripSlash_cons _ (by decide), rstripSlash_cons _ (by decide),
    rstripSlash_cons _ (by decide), rstripSlash_cons _ (by decide)]

/-- C4 counterexample: a well-formed LLM JSON reply whose
`selected_urls` holds the duplicate non-`http` string `"a"` twice;
`select_urls_with_r1` returns both copies unchanged — the result is
neither deduplicated nor restricted to strings beginning with `http`. -/
theorem select_urls_json_path_not_filtered :
    select_urls_with_r1 (.ok dupResp) = .ok ["a", "a"] ∧
    pyStartsWith "a" "http" = false :=
  ⟨rfl, rfl⟩

/-- C4 (amended): on the line-scan fallback path the returned list is
the cleaned scan result, and every entry of it begins with `http` and
is non-empty; the JSON path applies no deduplication and no `http`
filter. -/
theorem select_urls_fallback_entries_http (content : String) (u : String)
    (hu : u ∈ clean_urls (fallbackScan content)) :
    select_urls_with_r1 (.ok ⟨content, none⟩) = .ok (clean_urls (fallbackScan content)) ∧
    pyStartsWith u "http" = true ∧ u ≠ "" := by
  refine ⟨rfl, ?_, ?_⟩
  · rw [clean_urls, List.mem_filter] at hu
    obtain ⟨hmem, -⟩ := hu
    rw [List.mem_map] at hmem
    obtain ⟨w, hw, rfl⟩ := hmem
    rw [fallbackScan, List.mem_filter] at hw
    obtain ⟨-, hpre⟩ := hw
    rw [Bool.or_eq_true] at hpre
    obtain ⟨t, ht⟩ := clean_url_http_prefix w hpre
    rw [pyStartsWith, decide_eq_true_iff, ht]
    exact ⟨t, rfl⟩
  · rw [clean_urls, List.mem_filter] at hu
    simpa using hu.2

/-- Witness for C4 (amended) on a one-line LLM reply. -/
theorem select_urls_fallback_entries_http_witness :
    pyStartsWith "https://x.com" "http" = true ∧ ("https://x.com" : String) ≠ "" :=
  (select_urls_fallback_entries_http "https://x.com/" "https://x.com"
    (by decide)).2

/-- C6 counterexample: the cleaning removes a `/*` occurring in the
middle of a URL and removes all trailing slashes, so it differs from
stripping one trailing wildcard marker and one trailing slash
(`clean_url_claim`, modelled from the claim's wording). -/
theorem clean_url_differs_from_trailing_strip :
    clean_url "http://a.com/*/docs" = "http://a.com/docs" ∧
    clean_url_claim "http://a.com/*/docs" = "http://a.com/*/docs" ∧
    clean_url "http://a.com/*/docs" ≠ clean_url_claim "http://a.com/*/docs" ∧
    clean_url "http://b.com//" = "http://b.com" ∧
    clean_url_claim "http://b.com//" = "http://b.com/" :=
  ⟨rfl, rfl, by decide, rfl, rfl⟩

/-- C6 (amended): the cleaning step removes every occurrence of the
substring `/*` and all trailing slashes; the returned list holds
exactly the cleanings of the input URLs that are non-empty, and no
returned URL ends in a slash. -/
theorem clean_urls_characterization (urls : List String) :
    (∀ v, v ∈ clean_urls urls → v ≠ "" ∧ ∃ u, u ∈ urls ∧ v = clean_url u) ∧
    (∀ u, u ∈ urls → clean_url u ≠ "" → clean_url u ∈ clean_urls urls) ∧
    (∀ u : String, (clean_url u).data.getLast? ≠ some '/') := by
  refine ⟨?_, ?_, fun u => rstripSlash_no_trailing (removeWildcard u.data)⟩
  · intro v hv
    rw [clean_urls, List.mem_filter] at hv
    obtain ⟨hm, hne⟩ := hv
    rw [List.mem_map] at hm
    obtain ⟨u, hu, rfl⟩ := hm
    exact ⟨by simpa using hne, u, hu, rfl⟩
  · intro u hu hne
    rw [clean_urls, List.mem_filter]
    exact ⟨List.mem_map.2 ⟨u, hu, rfl⟩, by simpa using hne⟩

/-- Witness for C6 (amended): the cleaning of `"http://a.com/"` is
non-empty and appears in the cleaned list. -/
theorem clean_urls_characterization_witness :
    clean_url "http://a.com/" ∈ clean_urls ["http://a.com/"] :=
  (clean_urls_characterization ["http://a.com/"]).2.1 "http://a.com/"
    (by simp) (by decide)

/-- C7 counterexample: an LLM reply parsing to a dict whose
`selected_urls` value is the string `"http://a.com"` (not an array):
the code iterates the string's characters instead of falling back to
the line scan, returning the cleaned characters — while the fallback
scan of the same content would return `[]`. -/
theorem select_urls_nonarray_value_no_fallback :
    select_urls_with_r1 (.ok strValueResp) =
      .ok ["h", "t", "t", "p", ":", "a", ".", "c", "o", "m"] ∧
    clean_urls (fallbackScan strValueResp.content) = [] ∧
    select_urls_with_r1 (.ok strValueResp) ≠
      .ok (clean_urls (fallbackScan strValueResp.content)) := by
  refine ⟨rfl, rfl, fun h => ?_⟩
  rw [show select_urls_with_r1 (.ok strValueResp) =
      .ok ["h", "t", "t", "p", ":", "a", ".", "c", "o", "m"] from rfl,
    show clean_urls (fallbackScan strValueResp.content) = [] from rfl] at h
  exact absurd (Except.ok.inj h) (by decide)

/-- C7 (amended): whenever the reply's content is not parseable as
JSON, or parses to a value that is not a dict containing the key
`selected_urls`, `select_urls_with_r1` does not raise and returns the
cleaned line-scan fallback: exactly the trimmed lines beginning with
`http://` or `https://`, after URL cleaning. -/
theorem select_urls_fallback_condition (content : String) (parsed : Option Json)
    (h : ∀ fields, parsed = some (.obj fields) → jlookup fields "selected_urls" = none) :
    select_urls_with_r1 (.ok ⟨content, parsed⟩) =
      .ok (clean_urls (fallbackScan content)) := by
  match parsed with
  | none => rfl
  | some .null => rfl
  | some (.bool _) => rfl
  | some (.num _) => rfl
  | some (.str _) => rfl
  | some (.arr _) => rfl
  | some (.obj fields) =>
    have hl := h fields rfl
    simp [select_urls_with_r1, select_urls_body, hl]

/-- Witness for C7 (amended): unparseable content falls back to the
line scan without raising. -/
theorem select_urls_fallback_condition_witness :
    select_urls_with_r1 (.ok ⟨"hello", none⟩) = .ok (clean_urls (fallbackScan "hello")) ∧
    clean_urls (fallbackScan "hello") = [] :=
  ⟨select_urls_fallback_condition "hello" none (fun _ hf => by cases hf), rfl⟩
